import Mathlib

set_option maxRecDepth 100000

/-!
# Verification of `src/backend/kernel_tools/document_tools.py`

A shallow embedding of the `DocumentTools` class and its four operations:

* `read_document_contents` — returns a fixed hardcoded HTML-tables string;
* `save_to_excel` — parses HTML tables and writes one worksheet per table to
  the file `output.xlsx`, returning the file's bytes (third-party libraries
  BeautifulSoup / pandas / xlsxwriter are modelled by an abstract interface
  `Libs`, and the filesystem by an explicit association list `FileState`);
* `get_all_kernel_functions` — reflection over the class's function members;
* `generate_tools_json_doc` — emits the JSON tool manifest.

Python classes are modelled as a record of function members (`PyClass`,
`Method`); `inspect.getmembers` sorts members by name, which the embedding
reproduces with `List.insertionSort`.  Machine-level details irrelevant to the
claims (bytes are `List Nat`, exceptions are `String` tokens carried in
`Except`) are modelled explicitly where a claim depends on them.
-/

/-- The hardcoded triple-quoted string assigned to `html_content` inside
`read_document_contents` (document_tools.py lines 22-25), reproduced exactly:
it begins with a newline and eight spaces of indentation, contains the two
HTML tables, a literal double quote, and ends with a newline and eight
spaces, as the Python triple-quoted literal does. -/
def html_content : String :=
  "\n        Here are the extracted tables in HTML format: 1. **Sales Numbers for Q1:** <table border=\x27"
  ++ "1\x27 style=\x27border-collapse:collapse;width:50%;\x27> <thead> <tr> <th>Quarter</th> <th>Bicycle S"
  ++ "ales</th> <th>Helmet Sales</th> <th>Total Sales</th> </tr> </thead> <tbody> <tr> <td>Q1</td> <td>$15"
  ++ "0,000</td> <td>$75,000</td> <td>$225,000</td> </tr> <tr> <td>Q2</td> <td>$180,000</td> <td>$90,000</"
  ++ "td> <td>$270,000</td> </tr> <tr> <td>Q3</td> <td>$210,000</td> <td>$105,000</td> <td>$315,000</td> <"
  ++ "/tr> <tr> <td>Q4</td> <td>$240,000</td> <td>$120,000</td> <td>$360,000</td> </tr> </tbody></table>2."
  ++ " **Projected Sales Numbers:**<table border=\x271\x27 style=\x27border-collapse:collapse;width:50%;\x27"
  ++ "> <thead> <tr> <th>Quarter</th> <th>Projected Bicycle Sales</th> <th>Projected Helmet Sales</th> <th"
  ++ ">Projected Total Sales</th> </tr> </thead> <tbody> <tr> <td>Q1</td> <td>$270,000</td> <td>$135,000</"
  ++ "td> <td>$405,000</td> </tr> <tr> <td>Q2</td> <td>$300,000</td> <td>$150,000</td> <td>$450,000</td> <"
  ++ "/tr> <tr> <td>Q3</td> <td>$330,000</td> <td>$165,000</td> <td>$495,000</td> </tr> <tr> <td>Q4</td> <"
  ++ "td>$360,000</td> <td>$180,000</td> <td>$540,000</td> </tr> </tbody></table>\"\n        "

/-- `read_document_contents(document: bytes) -> str` (document_tools.py
lines 19-26): ignores its `document` argument, binds the hardcoded literal to
a local and returns it.  The `bytes` parameter is modelled as `List Nat`. -/
def read_document_contents (document : List Nat) : String :=
  html_content

/-- C3: `read_document_contents` is a constant function — on every input it
returns the fixed hardcoded HTML-tables string `html_content`, and its result
does not depend on the input bytes in any way (any two inputs give equal
results). -/
theorem read_document_contents_constant :
    (∀ document : List Nat, read_document_contents document = html_content) ∧
    (∀ d₁ d₂ : List Nat, read_document_contents d₁ = read_document_contents d₂) :=
  ⟨fun _ => rfl, fun _ _ => rfl⟩

/-! ## Python string helpers used by the reflection code -/

/-- ASCII whitespace, the only whitespace occurring in this file's
strings. -/
def isWsChar (c : Char) : Bool := c = ' ' || c = '\t' || c = '\n' || c = '\r'

/-- Python `str.strip()` — removes leading and trailing whitespace. -/
def pyStrip (s : String) : String :=
  String.mk (((s.data.dropWhile isWsChar).reverse.dropWhile isWsChar).reverse)

/-- Python `str.startswith(pre)`. -/
def pyStartsWith (s pre : String) : Bool := pre.data.isPrefixOf s.data

/-- Occurrence of `pat` as a contiguous sublist of `l`. -/
def subOccurs (pat : List Char) : List Char → Bool
  | [] => pat.isPrefixOf []
  | c :: t => pat.isPrefixOf (c :: t) || subOccurs pat t

/-- Python substring test `pat in s`, used by `get_all_kernel_functions` on
`str(method.__annotations__)` and by the type-hint fallback: true iff `pat`
occurs in `s`. -/
def pyContains (s pat : String) : Bool := subOccurs pat.data s.data

/-- Python `str.lower()` for the ASCII strings in play. -/
def pyLower (s : String) : String := String.mk (s.data.map Char.toLower)

/-- Python `str.replace(pat, rep)` for one-character `pat` and `rep` — the
only form the source uses (`replace("_", " ")` and `replace('"', "'")`). -/
def pyReplaceChar (pat rep : Char) (s : String) : String :=
  String.mk (s.data.map (fun c => if c = pat then rep else c))

/-- Python `str.title()` — uppercases each letter that starts an alphabetic
run and lowercases the rest (the only characters appearing here are ASCII
letters and spaces). -/
def pyTitle (s : String) : String :=
  String.mk (s.data.foldl
    (fun (acc : List Char × Bool) c =>
      if c.isAlpha then
        (acc.1 ++ [if acc.2 then c.toLower else c.toUpper], true)
      else
        (acc.1 ++ [c], false))
    ([], false)).1

/-! ## The class model

`DocumentTools` is modelled as a record of its function-valued attributes.
`inspect.getmembers(cls, predicate=inspect.isfunction)` yields, sorted by
name, the attributes for which `inspect.isfunction` holds: the two
`@staticmethod`s are plain functions, while the two `@classmethod`s are bound
methods (so `isfunction` is false for them); the string attributes
`formatting_instructions` and `agent_name` are not functions at all and never
reach the predicate, so they are not part of the member list.  `agent_name`
is a field of the class record since `generate_tools_json_doc` reads it. -/

/-- A Python type annotation as the reflection code sees it: either a type
object with a `__name__` (e.g. `bytes`, `str`), or a typing construct whose
`str()` form is inspected for `int`/`float`/`bool` substrings. -/
inductive PyTypeRepr where
  | named (n : String)
  | typingForm (s : String)
deriving DecidableEq, Repr

/-- One parameter of a method: its name, and its entry in
`get_type_hints(method)` when the parameter is annotated. -/
structure Param where
  name : String
  typeHint : Option PyTypeRepr
deriving DecidableEq, Repr

/-- One function member of the class, carrying exactly the attributes the
reflection code reads: `__kernel_function__` presence, the `description`
attribute on that marker (None when absent), `__doc__`,
`str(method.__annotations__)`, and the signature's parameters in order. -/
structure Method where
  name : String
  isFunction : Bool
  hasKernelFunction : Bool
  kfDescription : Option String
  docstring : Option String
  annotationsStr : String
  params : List Param
deriving DecidableEq, Repr

/-- A Python class as the two reflection helpers consume it. -/
structure PyClass where
  agent_name : String
  members : List Method
deriving DecidableEq, Repr

/-- `inspect.getmembers(cls, predicate=inspect.isfunction)`: the function
members sorted by name (getmembers sorts its result by attribute name). -/
def getmembers (cls : PyClass) : List Method :=
  List.insertionSort (fun a b => a.name.data ≤ b.name.data)
    (cls.members.filter (·.isFunction))

/-- `get_all_kernel_functions` (document_tools.py lines 64-89): iterate the
sorted function members, skip names starting with `_` and the method's own
name, keep a member when it has the `__kernel_function__` attribute or when
`"kernel_function"` occurs in `str(method.__annotations__)`; the resulting
dict (insertion-ordered, keys unique here) is an association list. -/
def get_all_kernel_functions (cls : PyClass) : List (String × Method) :=
  (getmembers cls).foldl
    (fun acc m =>
      if pyStartsWith m.name "_" || m.name == "get_all_kernel_functions" then acc
      else if m.hasKernelFunction || pyContains m.annotationsStr "kernel_function" then
        acc ++ [(m.name, m)]
      else acc)
    []

/-! ## `generate_tools_json_doc` (document_tools.py lines 91-172) -/

/-- The description computation (lines 110-119): start from `""`, replace it
by the stripped docstring when `method.__doc__` is truthy (present and
non-empty), then replace it by
`getattr(method.__kernel_function__, "description", None)` when that is
truthy. -/
def descriptionOf (m : Method) : String :=
  let description := ""
  let description :=
    match m.docstring with
    | some d => if d ≠ "" then pyStrip d else description
    | none => description
  match m.kfDescription with
  | some k => if k ≠ "" then k else description
  | none => description

/-- The parameter-type computation (lines 134-152): default `"string"`; for a
hinted parameter use the lowercased `__name__` when the type object has one,
otherwise lowercase `str(type_obj)` and map it onto
`int`/`float`/`boolean`/`string` by substring tests, in that order. -/
def paramTypeOf (p : Param) : String :=
  match p.typeHint with
  | none => "string"
  | some (.named n) => pyLower n
  | some (.typingForm s) =>
    let t := pyLower s
    if pyContains t "int" then "int"
    else if pyContains t "float" then "float"
    else if pyContains t "bool" then "boolean"
    else "string"

/-- The per-parameter record written into `args_dict` (lines 155-160). -/
structure ArgInfo where
  description : String
  title : String
  type : String
deriving DecidableEq, Repr

/-- `args_dict` (lines 129-160): parameters in signature order, skipping
`cls` and `self`; each maps to its description (the raw name), title
(`name.replace("_", " ").title()`) and type. -/
def argsDictOf (m : Method) : List (String × ArgInfo) :=
  m.params.foldl
    (fun acc p =>
      if p.name == "cls" || p.name == "self" then acc
      else acc ++ [(p.name, ⟨p.name, pyTitle (pyReplaceChar '_' ' ' p.name), paramTypeOf p⟩)])
    []

/-! ## JSON serialization

The source calls the stdlib `json.dumps` twice: compactly on `args_dict`
(separators `", "` and `": "`) and with `ensure_ascii=False, indent=2` on the
final list of flat string-valued objects.  Both calls are modelled at exactly
the value shapes the source produces.  `json.dumps` escapes `\`, `"` and
control characters inside strings; the characters below are the only ones
occurring in strings this file serializes. -/

/-- JSON string-character escaping as `json.dumps(..., ensure_ascii=False)`
performs it on the characters in play. -/
def escapeJsonChar (c : Char) : String :=
  if c = '\\' then "\\\\"
  else if c = '\"' then "\\\""
  else if c = '\n' then "\\n"
  else if c = '\t' then "\\t"
  else if c = '\r' then "\\r"
  else String.mk [c]

/-- Escape a whole string for inclusion in JSON output. -/
def escapeJson (s : String) : String :=
  String.join (s.data.map escapeJsonChar)

/-- A double-quoted JSON string literal. -/
def jstr (s : String) : String := "\"" ++ escapeJson s ++ "\""

/-- `json.dumps` of one `args_dict` value (a flat dict with keys
`description`, `title`, `type`), compact separators. -/
def renderArgInfo (a : ArgInfo) : String :=
  "\x7b" ++ jstr "description" ++ ": " ++ jstr a.description
  ++ ", " ++ jstr "title" ++ ": " ++ jstr a.title
  ++ ", " ++ jstr "type" ++ ": " ++ jstr a.type ++ "\x7d"

/-- `json.dumps(args_dict)` (line 169): insertion-ordered keys, compact
separators `", "` / `": "`. -/
def dumpsArgsDict (l : List (String × ArgInfo)) : String :=
  "\x7b"
  ++ String.intercalate ", " (l.map (fun kv => jstr kv.1 ++ ": " ++ renderArgInfo kv.2))
  ++ "\x7d"

/-- Python `.replace('"', "'")` applied to the dumped `args_dict`
(line 169). -/
def pyReplaceQuotes (s : String) : String := pyReplaceChar '\"' '\x27' s

/-- One entry of `tools_list` (lines 164-170): a dict with exactly the four
string-valued keys `agent`, `function`, `description`, `arguments`, in that
insertion order. -/
structure ToolEntry where
  agent : String
  function : String
  description : String
  arguments : String
deriving DecidableEq, Repr

/-- Build one `tool_entry` for a selected method (lines 164-170). -/
def toolEntryOf (cls : PyClass) (m : Method) : ToolEntry :=
  { agent := cls.agent_name
    function := m.name
    description := descriptionOf m
    arguments := pyReplaceQuotes (dumpsArgsDict (argsDictOf m)) }

/-- `tools_list` (lines 100-172): iterate the sorted function members, skip
names starting with `_` and `generate_tools_json_doc` itself, keep those with
the `__kernel_function__` attribute, and build a `tool_entry` for each. -/
def toolsList (cls : PyClass) : List ToolEntry :=
  ((getmembers cls).filter
    (fun m => !(pyStartsWith m.name "_")
      && m.name != "generate_tools_json_doc"
      && m.hasKernelFunction)).map (toolEntryOf cls)

/-- `json.dumps(tools_list, ensure_ascii=False, indent=2)` rendering of one
entry: an object at nesting depth 1, keys in insertion order, item lines
indented four spaces and braces two. -/
def renderEntry (e : ToolEntry) : String :=
  "  \x7b\n    " ++ jstr "agent" ++ ": " ++ jstr e.agent
  ++ ",\n    " ++ jstr "function" ++ ": " ++ jstr e.function
  ++ ",\n    " ++ jstr "description" ++ ": " ++ jstr e.description
  ++ ",\n    " ++ jstr "arguments" ++ ": " ++ jstr e.arguments
  ++ "\n  \x7d"

/-- `generate_tools_json_doc` (lines 91-172): the indent-2 JSON dump of
`tools_list` (an empty list dumps as `[]`). -/
def generate_tools_json_doc (cls : PyClass) : String :=
  match toolsList cls with
  | [] => "[]"
  | es => "[\n" ++ String.intercalate ",\n" (es.map renderEntry) ++ "\n]"

/-! ## The concrete `DocumentTools` class -/

/-- Modelled from the spec: `AgentType.HR.value`, imported from
`models/messages_kernel` which is not under `src/`.  The spec records only
that `agent_name` holds this enum's value; the concrete string is a stand-in
whose identity none of the claims depend on. -/
def AgentTypeHRValue : String := "Hr_Agent"

/-- The exact `__doc__` of `save_to_excel` (document_tools.py lines 31-39):
the triple-quoted literal including its leading newline and indentation. -/
def save_to_excel_doc : String :=
  "\n        Converts HTML tables in the provided HTML content to an Excel file.\n        \n        Args:"
  ++ "\n            html_content (str): The HTML content containing tables.\n        \n        Returns:"
  ++ "\n            bytes: The function saves the Excel file as \x27output.xlsx\x27.\n    "

/-- The member record for `read_document_contents`: a staticmethod (plain
function), decorated `@kernel_function(description="Read contents of the data
provided, extract tables and return them on HTML format.")`, no docstring
(its body starts with a comment, not a string), annotated
`(document: bytes) -> str`. -/
def readDocumentContentsMember : Method :=
  { name := "read_document_contents"
    isFunction := true
    hasKernelFunction := true
    kfDescription := some "Read contents of the data provided, extract tables and return them on HTML format."
    docstring := none
    annotationsStr := "\x7b\x27document\x27: <class \x27bytes\x27>, \x27return\x27: <class \x27str\x27>\x7d"
    params := [⟨"document", some (.named "bytes")⟩] }

/-- The member record for `save_to_excel`: a staticmethod, decorated
`@kernel_function(description="Save the extracted HTML tables to an Excel
file.")`, with a docstring, annotated `(html_content: str) -> bytes`. -/
def saveToExcelMember : Method :=
  { name := "save_to_excel"
    isFunction := true
    hasKernelFunction := true
    kfDescription := some "Save the extracted HTML tables to an Excel file."
    docstring := some save_to_excel_doc
    annotationsStr := "\x7b\x27html_content\x27: <class \x27str\x27>, \x27return\x27: <class \x27bytes\x27>\x7d"
    params := [⟨"html_content", some (.named "str")⟩] }

/-- The member record for the classmethod `get_all_kernel_functions`: as an
attribute of the class it is a bound method, so `inspect.isfunction` is
false; it has no `__kernel_function__` marker; its bound signature has no
parameters. -/
def getAllKernelFunctionsMember : Method :=
  { name := "get_all_kernel_functions"
    isFunction := false
    hasKernelFunction := false
    kfDescription := none
    docstring := some ("\n        Returns a dictionary of all methods in this class that have the @kernel_function annotation."
      ++ "\n        This function itself is not annotated with @kernel_function.\n\n        Returns:"
      ++ "\n            Dict[str, Callable]: Dictionary with function names as keys and function objects as values\n        ")
    annotationsStr := "\x7b\x27return\x27: dict[str, typing.Callable]\x7d"
    params := [] }

/-- The member record for the classmethod `generate_tools_json_doc`: a bound
method (`inspect.isfunction` false), no `__kernel_function__` marker, no
parameters in its bound signature. -/
def generateToolsJsonDocMember : Method :=
  { name := "generate_tools_json_doc"
    isFunction := false
    hasKernelFunction := false
    kfDescription := none
    docstring := some ("\n        Generate a JSON document containing information about all methods in the class."
      ++ "\n\n        Returns:\n            str: JSON string containing the methods\x27 information\n        ")
    annotationsStr := "\x7b\x27return\x27: <class \x27str\x27>\x7d"
    params := [] }

/-- The `DocumentTools` class (document_tools.py lines 14-172). -/
def DocumentTools : PyClass :=
  { agent_name := AgentTypeHRValue
    members := [readDocumentContentsMember, saveToExcelMember,
                getAllKernelFunctionsMember, generateToolsJsonDocMember] }

/-! ## Claims about the reflection helpers -/

/-- C1: on `DocumentTools`, `generate_tools_json_doc` produces one manifest
entry for exactly the members that are functions carrying the
`__kernel_function__` marker, whose names do not start with `_` and are not
`generate_tools_json_doc` — namely `read_document_contents` and
`save_to_excel` — and each entry's `args_dict` has exactly the method's
parameter names (minus `cls`/`self`) as keys. -/
theorem generate_tools_json_doc_entries_exact :
    (toolsList DocumentTools).map ToolEntry.function
      = ["read_document_contents", "save_to_excel"]
    ∧ (∀ m ∈ DocumentTools.members,
        ((m.isFunction && m.hasKernelFunction && !(pyStartsWith m.name "_")
          && m.name != "generate_tools_json_doc") = true
        ↔ m.name ∈ (toolsList DocumentTools).map ToolEntry.function))
    ∧ (argsDictOf readDocumentContentsMember).map Prod.fst
        = (readDocumentContentsMember.params.map Param.name).filter
            (fun n => n != "cls" && n != "self")
    ∧ (argsDictOf saveToExcelMember).map Prod.fst
        = (saveToExcelMember.params.map Param.name).filter
            (fun n => n != "cls" && n != "self") := by
  refine ⟨rfl, ?_, rfl, rfl⟩
  decide

/-- Witness for C1: the second conjunct instantiated at the concrete member
`read_document_contents` of `DocumentTools`. -/
theorem generate_tools_json_doc_entries_exact_witness :
    (readDocumentContentsMember.isFunction
      && readDocumentContentsMember.hasKernelFunction
      && !(pyStartsWith readDocumentContentsMember.name "_")
      && readDocumentContentsMember.name != "generate_tools_json_doc") = true
    ↔ readDocumentContentsMember.name
        ∈ (toolsList DocumentTools).map ToolEntry.function :=
  generate_tools_json_doc_entries_exact.2.1 readDocumentContentsMember (by decide)

/-- C4: `get_all_kernel_functions` on `DocumentTools` returns the dict whose
keys are exactly the function members with the `__kernel_function__`
annotation, excluding `_`-prefixed names and `get_all_kernel_functions`
itself — the key set is exactly `read_document_contents` and
`save_to_excel` — each mapped to the corresponding function object. -/
theorem get_all_kernel_functions_exact :
    get_all_kernel_functions DocumentTools
      = [("read_document_contents", readDocumentContentsMember),
         ("save_to_excel", saveToExcelMember)]
    ∧ (∀ m ∈ DocumentTools.members,
        ((m.isFunction && m.hasKernelFunction && !(pyStartsWith m.name "_")
          && m.name != "get_all_kernel_functions") = true
        ↔ m.name ∈ (get_all_kernel_functions DocumentTools).map Prod.fst)) := by
  refine ⟨rfl, ?_⟩
  decide

/-- Witness for C4: the membership conjunct instantiated at the concrete
member `save_to_excel` of `DocumentTools`. -/
theorem get_all_kernel_functions_exact_witness :
    (saveToExcelMember.isFunction && saveToExcelMember.hasKernelFunction
      && !(pyStartsWith saveToExcelMember.name "_")
      && saveToExcelMember.name != "get_all_kernel_functions") = true
    ↔ saveToExcelMember.name
        ∈ (get_all_kernel_functions DocumentTools).map Prod.fst :=
  get_all_kernel_functions_exact.2 saveToExcelMember (by decide)

/-- C8: every entry of `tools_list` has its `agent` field equal to the class
constant `agent_name`, whichever method the entry describes — the
`tool_entry` construction copies `cls.agent_name` unconditionally. -/
theorem toolsList_agent_eq_agent_name (cls : PyClass) (e : ToolEntry)
    (he : e ∈ toolsList cls) : e.agent = cls.agent_name := by
  obtain ⟨m, _, rfl⟩ := List.mem_map.mp he
  rfl

/-- Witness for C8: the first entry of the `DocumentTools` manifest has
`agent = DocumentTools.agent_name`. -/
theorem toolsList_agent_eq_agent_name_witness :
    (toolEntryOf DocumentTools readDocumentContentsMember).agent
      = DocumentTools.agent_name :=
  toolsList_agent_eq_agent_name DocumentTools
    (toolEntryOf DocumentTools readDocumentContentsMember) (by decide)

/-- C9: when a method has both a truthy docstring and a truthy
`__kernel_function__.description`, the entry description is the
kernel-function description (the docstring is overwritten); the stripped
docstring survives only when the kernel-function description is absent or
empty. -/
theorem descriptionOf_kernel_description_overrides :
    (∀ (m : Method) (d k : String), m.docstring = some d → d ≠ "" →
      m.kfDescription = some k → k ≠ "" → descriptionOf m = k)
    ∧ (∀ (m : Method) (d : String),
      m.kfDescription = none ∨ m.kfDescription = some "" →
      m.docstring = some d → d ≠ "" → descriptionOf m = pyStrip d) := by
  constructor
  · intro m d k hd hd' hk hk'
    simp [descriptionOf, hd, hk, hd', hk']
  · intro m d hk hd hd'
    rcases hk with hk | hk <;> simp [descriptionOf, hd, hk, hd']

/-- A synthetic method with both a truthy docstring and a truthy
kernel-function description, exercising the override branch of
`descriptionOf`. -/
def methodWithBothDescriptions : Method :=
  { name := "m", isFunction := true, hasKernelFunction := true,
    kfDescription := some "kd", docstring := some " doc ",
    annotationsStr := "", params := [] }

/-- The same synthetic method with the kernel-function description absent. -/
def methodWithDocstringOnly : Method :=
  { name := "m", isFunction := true, hasKernelFunction := true,
    kfDescription := none, docstring := some " doc ",
    annotationsStr := "", params := [] }

/-- Witness for C9: a method with docstring `" doc "` and kernel-function
description `"kd"` gets description `"kd"`; the same method with no
kernel-function description gets the stripped docstring. -/
theorem descriptionOf_kernel_description_overrides_witness :
    descriptionOf methodWithBothDescriptions = "kd"
    ∧ descriptionOf methodWithDocstringOnly = pyStrip " doc " :=
  ⟨descriptionOf_kernel_description_overrides.1 _ " doc " "kd" rfl
      (by decide) rfl (by decide),
    descriptionOf_kernel_description_overrides.2 _ " doc " (Or.inl rfl) rfl
      (by decide)⟩

/-- Name order on methods, the order `inspect.getmembers` sorts by
(lexicographic on the name's characters). -/
instance : IsTotal Method (fun a b => a.name.data ≤ b.name.data) :=
  ⟨fun a b => le_total a.name.data b.name.data⟩

/-- Transitivity of the name order on methods. -/
instance : IsTrans Method (fun a b => a.name.data ≤ b.name.data) :=
  ⟨fun _ _ _ hab hbc => le_trans hab hbc⟩

/-- C10: `generate_tools_json_doc` is deterministic — two invocations on the
same class give character-identical strings (the embedding is a pure function
of the class and `getmembers` sorts, leaving no iteration-order freedom) —
and for every class the manifest entries are in ascending alphabetical order
of function name; concretely on `DocumentTools` the `read_document_contents`
entry precedes the `save_to_excel` entry. -/
theorem generate_tools_json_doc_deterministic_sorted :
    (∀ cls : PyClass, generate_tools_json_doc cls = generate_tools_json_doc cls)
    ∧ (∀ cls : PyClass,
        List.Sorted (fun a b : ToolEntry => a.function.data ≤ b.function.data)
          (toolsList cls))
    ∧ (toolsList DocumentTools).map ToolEntry.function
        = ["read_document_contents", "save_to_excel"] := by
  refine ⟨fun _ => rfl, fun cls => ?_, rfl⟩
  have h : List.Sorted (fun a b : Method => a.name.data ≤ b.name.data)
      (getmembers cls) := List.sorted_insertionSort _ _
  have h2 : List.Sorted (fun a b : Method => a.name.data ≤ b.name.data)
      ((getmembers cls).filter
        (fun m => !(pyStartsWith m.name "_")
          && m.name != "generate_tools_json_doc" && m.hasKernelFunction)) :=
    List.Pairwise.filter _ h
  unfold toolsList
  exact (List.pairwise_map).mpr h2

/-! ## A JSON reader, used to check that the emitted manifest parses

To settle the claim that the returned string *parses* as the documented
manifest shape, a small JSON value type and a fuelled recursive-descent
reader are defined; the reader is parameterised by the quote character so the
same code also reads the Python-`repr`-style `arguments` strings, whose
strings are single-quoted after the source's `.replace('"', "'")`. -/

/-- JSON values, restricted to the constructors the manifest uses (every
leaf the source serializes is a string). -/
inductive Json where
  | str (s : String)
  | arr (elems : List Json)
  | obj (fields : List (String × Json))

/-- Drop leading whitespace. -/
def skipWs : List Char → List Char
  | [] => []
  | c :: cs => if isWsChar c then skipWs cs else c :: cs

/-- Read the body of a quoted string (opening quote already consumed),
decoding the escapes `json.dumps` can emit; returns the decoded characters
and the input past the closing quote. -/
def parseStringChars (qc : Char) : List Char → Option (List Char × List Char)
  | [] => none
  | c :: cs =>
    if c = qc then some ([], cs)
    else if c = '\\' then
      match cs with
      | [] => none
      | e :: cs' =>
        let dec : Option Char :=
          if e = 'n' then some '\n'
          else if e = 't' then some '\t'
          else if e = 'r' then some '\r'
          else if e = '\\' then some '\\'
          else if e = '/' then some '/'
          else if e = qc then some qc
          else none
        match dec with
        | none => none
        | some ch =>
          match parseStringChars qc cs' with
          | some (out, rest) => some (ch :: out, rest)
          | none => none
    else
      match parseStringChars qc cs with
      | some (out, rest) => some (c :: out, rest)
      | none => none

mutual

/-- Read one JSON value (string, array or object). -/
def parseJsonVal (qc : Char) : Nat → List Char → Option (Json × List Char)
  | 0, _ => none
  | fuel + 1, cs =>
    match skipWs cs with
    | [] => none
    | c :: cs' =>
      if c = qc then
        match parseStringChars qc cs' with
        | some (out, rest) => some (.str (String.mk out), rest)
        | none => none
      else if c = '[' then
        match skipWs cs' with
        | ']' :: rest => some (.arr [], rest)
        | cs'' =>
          match parseJsonItems qc fuel cs'' with
          | some (vs, rest) => some (.arr vs, rest)
          | none => none
      else if c = '\x7b' then
        match skipWs cs' with
        | '\x7d' :: rest => some (.obj [], rest)
        | cs'' =>
          match parseJsonFields qc fuel cs'' with
          | some (fs, rest) => some (.obj fs, rest)
          | none => none
      else none

/-- Read the comma-separated elements of a non-empty array, up to `]`. -/
def parseJsonItems (qc : Char) : Nat → List Char → Option (List Json × List Char)
  | 0, _ => none
  | fuel + 1, cs =>
    match parseJsonVal qc fuel cs with
    | none => none
    | some (v, rest) =>
      match skipWs rest with
      | ',' :: rest' =>
        match parseJsonItems qc fuel rest' with
        | some (vs, rest2) => some (v :: vs, rest2)
        | none => none
      | ']' :: rest' => some ([v], rest')
      | _ => none

/-- Read the `key: value` fields of a non-empty object, up to the closing
brace. -/
def parseJsonFields (qc : Char) : Nat → List Char →
    Option (List (String × Json) × List Char)
  | 0, _ => none
  | fuel + 1, cs =>
    match skipWs cs with
    | [] => none
    | c :: cs' =>
      if c = qc then
        match parseStringChars qc cs' with
        | none => none
        | some (key, rest) =>
          match skipWs rest with
          | ':' :: rest' =>
            match parseJsonVal qc fuel (skipWs rest') with
            | none => none
            | some (v, rest2) =>
              match skipWs rest2 with
              | ',' :: rest3 =>
                match parseJsonFields qc fuel rest3 with
                | some (fs, rest4) => some ((String.mk key, v) :: fs, rest4)
                | none => none
              | '\x7d' :: rest3 => some ([(String.mk key, v)], rest3)
              | _ => none
          | _ => none
      else none

end

/-- Parse a complete double-quoted JSON document (no trailing junk). -/
def jsonParse (s : String) : Option Json :=
  match parseJsonVal '\"' (s.data.length + 1) s.data with
  | some (v, rest) => if skipWs rest = [] then some v else none
  | none => none

/-- Parse a complete single-quoted Python-dict-style document, the format of
the manifest's `arguments` strings. -/
def pyDictParse (s : String) : Option Json :=
  match parseJsonVal '\x27' (s.data.length + 1) s.data with
  | some (v, rest) => if skipWs rest = [] then some v else none
  | none => none

/-- Is this JSON value a string? -/
def isStrJson : Json → Bool
  | .str _ => true
  | _ => false

/-- A per-parameter object: exactly the fields `description`, `title`,
`type`, in that order, each string-valued. -/
def argInfoShape : Json → Bool
  | .obj fields =>
    decide (fields.map Prod.fst = ["description", "title", "type"])
      && fields.all (fun f => isStrJson f.2)
  | _ => false

/-- The keys of a parsed `arguments` mapping, provided every value is a
well-shaped per-parameter object. -/
def argsKeysOf : Json → Option (List String)
  | .obj fields =>
    if fields.all (fun f => argInfoShape f.2) then some (fields.map Prod.fst)
    else none
  | _ => none

/-- A manifest entry: an object with exactly the string-valued fields
`agent`, `function`, `description`, `arguments`, in that order. -/
def entryShape : Json → Bool
  | .obj fields =>
    decide (fields.map Prod.fst = ["agent", "function", "description", "arguments"])
      && fields.all (fun f => isStrJson f.2)
  | _ => false

/-- The parameter names listed in an entry's `arguments` string, when that
string parses as a mapping to well-shaped per-parameter objects. -/
def entryArgsKeys (j : Json) : Option (List String) :=
  match j with
  | .obj fields =>
    match fields.lookup "arguments" with
    | some (.str a) =>
      match pyDictParse a with
      | some d => argsKeysOf d
      | none => none
    | _ => none
  | _ => none

/-- The manifest string's entries, when it parses as a JSON array. -/
def manifestEntries (s : String) : Option (List Json) :=
  match jsonParse s with
  | some (.arr entries) => some entries
  | _ => none

/-- C2: the string `generate_tools_json_doc` returns parses as a JSON array
of objects, every object has exactly the four string-valued fields `agent`,
`function`, `description` and `arguments`, and each `arguments` value is a
stringified mapping from exactly the method's parameter names to objects
with fields `description`, `title` and `type`. -/
theorem generate_tools_json_doc_parses_as_manifest :
    (manifestEntries (generate_tools_json_doc DocumentTools)).isSome = true
    ∧ ((manifestEntries (generate_tools_json_doc DocumentTools)).getD []).all
        entryShape = true
    ∧ ((manifestEntries (generate_tools_json_doc DocumentTools)).getD []).map
        entryArgsKeys
        = [some (readDocumentContentsMember.params.map Param.name),
           some (saveToExcelMember.params.map Param.name)] := by
  refine ⟨rfl, rfl, rfl⟩

/-! ## `save_to_excel` (document_tools.py lines 28-62)

The third-party calls are modelled by an interface record `Libs`:
`BeautifulSoup(html_content, 'html.parser')`, `soup.find_all('table')`,
`str(table)`, `pd.read_html(StringIO(...))[0]` (pandas raises `ValueError`
when it finds no table, so the compound expression is one fallible call) and
the workbook bytes `xlsxwriter` produces on `close()` for the sheets written,
in order.  Exceptions are `Except` errors carrying a `PyErr` token; the
filesystem is an association list from path to byte content, `bytes` being
`List Nat`.  `pd.ExcelWriter(...)` buffers `to_excel` calls in memory and
`close()` writes the file, so sheet writes accumulate in a list and the file
is touched only at `close()`. -/

/-- An exception value raised by a library call, carried unchanged. -/
abbrev PyErr := String

/-- The object `BeautifulSoup(...)` returns. -/
abbrev Soup := String

/-- One `<table>` element found by `soup.find_all('table')`. -/
abbrev Table := String

/-- The DataFrame `pd.read_html(...)[0]` returns for one table. -/
abbrev DataFrame := String

/-- The third-party surface `save_to_excel` delegates to. -/
structure Libs where
  parseSoup : String → Except PyErr Soup
  findAllTables : Soup → List Table
  strTable : Table → String
  readHtmlFirst : String → Except PyErr DataFrame
  workbookBytes : List (String × DataFrame) → Except PyErr (List Nat)

/-- The filesystem visible to `save_to_excel`: paths mapped to bytes. -/
abbrev FileState := List (String × List Nat)

/-- Overwrite (or create) the file at `p` with bytes `b`. -/
def setFile : FileState → String → List Nat → FileState
  | [], p, b => [(p, b)]
  | (q, c) :: t, p, b => if q = p then (p, b) :: t else (q, c) :: setFile t p b

/-- Read the file at `p`, `none` when absent. -/
def getFile : FileState → String → Option (List Nat)
  | [], _ => none
  | (q, c) :: t, p => if q = p then some c else getFile t p

/-- The `for i, table in enumerate(tables)` loop (lines 53-58): each table is
read into a DataFrame and written to the sheet named `f'Table_{i+1}'`; the
first failing `read_html` aborts the loop with its error. -/
def writeSheets (L : Libs) : List Table → Nat → List (String × DataFrame) →
    Except PyErr (List (String × DataFrame))
  | [], _, acc => .ok acc
  | t :: ts, i, acc =>
    match L.readHtmlFirst (L.strTable t) with
    | .error e => .error e
    | .ok df => writeSheets L ts (i + 1) (acc ++ [("Table_" ++ toString (i + 1), df)])

/-- `save_to_excel(html_content)` (lines 28-62) against file state `fs`:
parse the HTML, find the tables, convert each to a worksheet, close the
writer (writing `output.xlsx`), reopen the file and return its bytes.  The
result pairs the returned value (or propagated error) with the file state
after the call; an error raised before `close()` leaves the file state
unchanged. -/
def save_to_excel (L : Libs) (html_content : String) (fs : FileState) :
    Except PyErr (List Nat) × FileState :=
  match L.parseSoup html_content with
  | .error e => (.error e, fs)
  | .ok soup =>
    match writeSheets L (L.findAllTables soup) 0 [] with
    | .error e => (.error e, fs)
    | .ok sheets =>
      match L.workbookBytes sheets with
      | .error e => (.error e, fs)
      | .ok bytes =>
        let fs' := setFile fs "output.xlsx" bytes
        match getFile fs' "output.xlsx" with
        | some b => (.ok b, fs')
        | none => (.error "FileNotFoundError", fs')

/-- The sheet names `Table_(i+1), ..., Table_(i+n)`. -/
def sheetNumberNames (i n : Nat) : List String :=
  (List.range n).map (fun j => "Table_" ++ toString (i + j + 1))

/-- Reading back the path just written returns exactly the written bytes. -/
theorem getFile_setFile_same (fs : FileState) (p : String) (b : List Nat) :
    getFile (setFile fs p b) p = some b := by
  induction fs with
  | nil => simp [setFile, getFile]
  | cons hd tl ih =>
    obtain ⟨q, c⟩ := hd
    by_cases h : q = p <;> simp [setFile, getFile, h, ih]

/-- Writing one path does not change any other path. -/
theorem getFile_setFile_other (fs : FileState) (p q : String) (b : List Nat)
    (h : q ≠ p) : getFile (setFile fs p b) q = getFile fs q := by
  have hpq : ¬ p = q := fun hh => h hh.symm
  induction fs with
  | nil => simp [setFile, getFile, hpq]
  | cons hd tl ih =>
    obtain ⟨r, c⟩ := hd
    by_cases hr : r = p
    · subst hr
      simp [setFile, getFile, hpq]
    · simp [setFile, getFile, hr, ih]

/-- Unfolding `sheetNumberNames` one step. -/
theorem sheetNumberNames_succ (i n : Nat) :
    sheetNumberNames i (n + 1)
      = ("Table_" ++ toString (i + 1)) :: sheetNumberNames (i + 1) n := by
  simp only [sheetNumberNames, List.range_succ_eq_map, List.map_cons,
    List.map_map, Nat.add_zero]
  congr 1
  apply List.map_congr_left
  intro j _
  have harg : i + (j + 1) + 1 = i + 1 + j + 1 := by omega
  simp [Function.comp, harg]

/-- A successful sheet-writing loop appends exactly one sheet per table, in
document order, named by consecutive `Table_` numbers. -/
theorem writeSheets_ok_names (L : Libs) (ts : List Table) :
    ∀ (i : Nat) (acc sheets : List (String × DataFrame)),
      writeSheets L ts i acc = .ok sheets →
      sheets.map Prod.fst = acc.map Prod.fst ++ sheetNumberNames i ts.length := by
  induction ts with
  | nil =>
    intro i acc sheets h
    simp only [writeSheets] at h
    cases h
    simp [sheetNumberNames]
  | cons t ts ih =>
    intro i acc sheets h
    simp only [writeSheets] at h
    cases hr : L.readHtmlFirst (L.strTable t) with
    | error e => rw [hr] at h; cases h
    | ok df =>
      rw [hr] at h
      have := ih (i + 1) (acc ++ [("Table_" ++ toString (i + 1), df)]) sheets h
      rw [this, List.length_cons, sheetNumberNames_succ]
      simp

/-- An erroring sheet-writing loop erred inside `pd.read_html` on one of the
tables, and its error is the loop's error. -/
theorem writeSheets_error_from_lib (L : Libs) (ts : List Table) :
    ∀ (i : Nat) (acc : List (String × DataFrame)) (e : PyErr),
      writeSheets L ts i acc = .error e →
      ∃ t ∈ ts, L.readHtmlFirst (L.strTable t) = .error e := by
  induction ts with
  | nil => intro i acc e h; simp [writeSheets] at h
  | cons t ts ih =>
    intro i acc e h
    simp only [writeSheets] at h
    cases hr : L.readHtmlFirst (L.strTable t) with
    | error e' =>
      rw [hr] at h
      cases h
      exact ⟨t, List.mem_cons_self t ts, hr⟩
    | ok df =>
      rw [hr] at h
      obtain ⟨u, hu, he⟩ := ih (i + 1) (acc ++ [("Table_" ++ toString (i + 1), df)]) e h
      exact ⟨u, List.mem_cons_of_mem t hu, he⟩

/-- C5: when the library calls succeed, `save_to_excel` delegates entirely:
it writes exactly one worksheet per table found, in document order, named
`Table_1` through `Table_n`, the workbook bytes for those sheets land in the
file `output.xlsx`, and the return value is exactly the bytes of that file
as written. -/
theorem save_to_excel_delegates (L : Libs) (html : String) (fs : FileState)
    (soup : Soup) (sheets : List (String × DataFrame)) (bytes : List Nat)
    (hsoup : L.parseSoup html = .ok soup)
    (hsheets : writeSheets L (L.findAllTables soup) 0 [] = .ok sheets)
    (hbytes : L.workbookBytes sheets = .ok bytes) :
    save_to_excel L html fs = (.ok bytes, setFile fs "output.xlsx" bytes)
    ∧ sheets.map Prod.fst = sheetNumberNames 0 (L.findAllTables soup).length := by
  constructor
  · simp only [save_to_excel, hsoup, hsheets, hbytes, getFile_setFile_same]
  · simpa using writeSheets_ok_names L (L.findAllTables soup) 0 [] sheets hsheets

/-- A concrete `Libs` instance: the parser succeeds, no tables are found,
and the workbook for zero sheets is a fixed four-byte content. -/
def emptyDocLibs : Libs :=
  { parseSoup := fun s => .ok s
    findAllTables := fun _ => []
    strTable := fun t => t
    readHtmlFirst := fun s => .ok s
    workbookBytes := fun _ => .ok [80, 75, 3, 4] }

/-- A concrete `Libs` instance: one table is found and `read_html` raises
`ValueError` on it. -/
def valueErrorLibs : Libs :=
  { parseSoup := fun s => .ok s
    findAllTables := fun s => [s]
    strTable := fun t => t
    readHtmlFirst := fun _ => .error "ValueError"
    workbookBytes := fun _ => .ok [] }

/-- Witness for C5: with the no-tables library instance, `save_to_excel`
writes the zero-sheet workbook bytes to `output.xlsx` and returns them. -/
theorem save_to_excel_delegates_witness :
    save_to_excel emptyDocLibs "x" []
        = (.ok [80, 75, 3, 4], setFile [] "output.xlsx" [80, 75, 3, 4])
    ∧ ([] : List (String × DataFrame)).map Prod.fst
        = sheetNumberNames 0 (emptyDocLibs.findAllTables "x").length :=
  save_to_excel_delegates emptyDocLibs "x" [] "x" [] [80, 75, 3, 4] rfl rfl rfl

/-- C6: `save_to_excel` neither catches nor transforms exceptions — its
result is an error exactly when one of the delegated library stages (HTML
parsing, the DataFrame conversion loop, workbook writing) errs, and the
error value reaching the caller is that library error unchanged; a
DataFrame-loop error is itself the unchanged error of a `read_html` call on
one of the tables.  (`read_document_contents` is a total constant function
and raises nothing, and no branch of the embedding fabricates an error of
its own.) -/
theorem save_to_excel_error_iff (L : Libs) (html : String) (fs : FileState)
    (e : PyErr) :
    ((save_to_excel L html fs).1 = .error e ↔
      L.parseSoup html = .error e
      ∨ (∃ soup, L.parseSoup html = .ok soup
          ∧ writeSheets L (L.findAllTables soup) 0 [] = .error e)
      ∨ (∃ soup sheets, L.parseSoup html = .ok soup
          ∧ writeSheets L (L.findAllTables soup) 0 [] = .ok sheets
          ∧ L.workbookBytes sheets = .error e))
    ∧ (∀ (ts : List Table) (i : Nat) (acc : List (String × DataFrame)),
        writeSheets L ts i acc = .error e →
        ∃ t ∈ ts, L.readHtmlFirst (L.strTable t) = .error e) := by
  constructor
  · constructor
    · intro h
      cases hs : L.parseSoup html with
      | error e' =>
        simp [save_to_excel, hs] at h
        subst h
        exact Or.inl rfl
      | ok soup =>
        cases hw : writeSheets L (L.findAllTables soup) 0 [] with
        | error e' =>
          simp [save_to_excel, hs, hw] at h
          subst h
          exact Or.inr (Or.inl ⟨soup, rfl, hw⟩)
        | ok sheets =>
          cases hb : L.workbookBytes sheets with
          | error e' =>
            simp [save_to_excel, hs, hw, hb] at h
            subst h
            exact Or.inr (Or.inr ⟨soup, sheets, rfl, hw, hb⟩)
          | ok bytes =>
            simp [save_to_excel, hs, hw, hb, getFile_setFile_same] at h
    · rintro (h | ⟨soup, hs, hw⟩ | ⟨soup, sheets, hs, hw, hb⟩) <;>
        simp [save_to_excel, *]
  · exact fun ts i acc h => writeSheets_error_from_lib L ts i acc e h

/-- Witness for C6: a `ValueError` injected into `read_html` surfaces
unchanged, and the loop error is traced back to the library call on the
offending table. -/
theorem save_to_excel_error_iff_witness :
    ∃ t ∈ ["t"], valueErrorLibs.readHtmlFirst (valueErrorLibs.strTable t)
        = .error "ValueError" :=
  (save_to_excel_error_iff valueErrorLibs "x" [] "ValueError").2 ["t"] 0 [] rfl

/-- Counterexample to C7 as stated: `save_to_excel` does *not* leave all
state outside the call unchanged — called on an empty file state it creates
`output.xlsx`, so the file state after the call differs from the one
before. -/
theorem save_to_excel_changes_outside_state :
    ¬ ((save_to_excel emptyDocLibs "" []).2 = ([] : FileState)) := by decide

/-- C7 (amended): the only external state `save_to_excel` touches is the
file `output.xlsx` — every other path is unchanged — and its return value
does not depend on the pre-existing file state.  The remaining three
operations are plain functions of their arguments with no state parameter at
all. -/
theorem save_to_excel_frame_only_output (L : Libs) (html : String)
    (fs fs' : FileState) (p : String) (hp : p ≠ "output.xlsx") :
    getFile (save_to_excel L html fs).2 p = getFile fs p
    ∧ (save_to_excel L html fs).1 = (save_to_excel L html fs').1 := by
  cases hs : L.parseSoup html with
  | error e => simp [save_to_excel, hs]
  | ok soup =>
    cases hw : writeSheets L (L.findAllTables soup) 0 [] with
    | error e => simp [save_to_excel, hs, hw]
    | ok sheets =>
      cases hb : L.workbookBytes sheets with
      | error e => simp [save_to_excel, hs, hw, hb]
      | ok bytes =>
        constructor
        · simp [save_to_excel, hs, hw, hb, getFile_setFile_same,
            getFile_setFile_other fs "output.xlsx" p bytes hp]
        · simp [save_to_excel, hs, hw, hb, getFile_setFile_same]

/-- Witness for C7 (amended): a path other than `output.xlsx` is untouched,
and the returned bytes are the same whatever file state the call starts
from. -/
theorem save_to_excel_frame_only_output_witness :
    getFile (save_to_excel emptyDocLibs "" []).2 "other.txt"
        = getFile [] "other.txt"
    ∧ (save_to_excel emptyDocLibs "" []).1
        = (save_to_excel emptyDocLibs "" [("a", [1])]).1 :=
  save_to_excel_frame_only_output emptyDocLibs "" [] [("a", [1])] "other.txt"
    (by decide)
